import Mathlib

/-!
Verification of the window-locator and overlay-tracking core of the
fake-vac repository (src/main.py).

The embedding models:
  * Python str.strip() on window titles (pyStrip),
  * find_window_by_title_exact (src/main.py lines 39-55): EnumWindows over a
    list of top-level windows, skipping invisible ones, reading each title
    through a 512-wide character buffer (so at most 511 characters survive),
    and returning the first exact trimmed match, else None,
  * is_window_covered_or_not_foreground (src/main.py lines 65-85): the
    fail-safe covered computation with its try/except wrapper,
  * OverlayWindow._tick (src/main.py lines 291-313): visibility transition
    on change followed by repositioning to (right + dx, top + dy),
  * main (src/main.py lines 6507-6519): startup lookup and exit-on-failure.

Fallible OS queries (IsIconic, GetForegroundWindow, GetWindowRect, winId)
are modelled as Except-valued fields of a per-tick environment; a Python
try/except block becomes a match on the Except value.
-/

namespace FakeVac

/-- Python str.strip() on a list of characters: drop whitespace from the
front, then from the back.  Mirrors buf.value.strip() in src/main.py. -/
def stripList (l : List Char) : List Char :=
  List.rdropWhile Char.isWhitespace (l.dropWhile Char.isWhitespace)

/-- Python str.strip() on strings. -/
def pyStrip (s : String) : String :=
  ⟨stripList s.data⟩

/-- A top-level window as seen by EnumWindows: its handle, its
IsWindowVisible flag, and its full title text. -/
structure Window where
  hwnd : Nat
  visible : Bool
  title : String
deriving DecidableEq

/-- Reading a window title through create_unicode_buffer(512) and
GetWindowTextW(hwnd, buf, 512): at most 511 characters are copied
(the last slot holds the terminator), longer titles are truncated. -/
def readWindowText (w : Window) : String :=
  ⟨w.title.data.take 511⟩

/-- find_window_by_title_exact (src/main.py lines 39-55): enum_proc skips a
window whose IsWindowVisible flag is false, otherwise reads its title through
the bounded buffer, strips it and compares with the query; on the first match
it appends the handle and stops the enumeration.  The caller returns
result[0] if result else None. -/
def find_window_by_title_exact (title : String) : List Window → Option Nat
  | [] => none
  | w :: ws =>
    if w.visible = false then find_window_by_title_exact title ws
    else if pyStrip (readWindowText w) = title then some w.hwnd
    else find_window_by_title_exact title ws

/-- The outcomes of the OS queries one tick can make.  Each query is
independently fallible: an Except.error models the ctypes call raising. -/
structure TickEnv where
  winId : Except Unit Nat
  iconic : Except Unit Bool
  fg : Except Unit Nat
  rect : Except Unit (Int × Int × Int × Int)

/-- The body of the try block of is_window_covered_or_not_foreground
(src/main.py lines 72-82), with exceptions propagating:
  if not hwnd_steam: return True
  if IsIconic(hwnd_steam): return True
  fg = GetForegroundWindow()
  if fg == hwnd_steam: return False
  if hwnd_overlay and fg == hwnd_overlay: return False
  return True -/
def coveredBody (env : TickEnv) (hwnd_steam hwnd_overlay : Nat) : Except Unit Bool :=
  if hwnd_steam = 0 then .ok true
  else
    match env.iconic with
    | .error e => .error e
    | .ok ic =>
      if ic then .ok true
      else
        match env.fg with
        | .error e => .error e
        | .ok f =>
          if f = hwnd_steam then .ok false
          else if hwnd_overlay ≠ 0 ∧ f = hwnd_overlay then .ok false
          else .ok true

/-- is_window_covered_or_not_foreground (src/main.py lines 65-85): the try
body above wrapped in except Exception: return True. -/
def is_window_covered_or_not_foreground (env : TickEnv) (hwnd_steam hwnd_overlay : Nat) : Bool :=
  match coveredBody env hwnd_steam hwnd_overlay with
  | .ok b => b
  | .error _ => true

/-- Commands the tick pushes to the presentation surface. -/
inductive Cmd where
  | hideCmd : Cmd
  | showCmd : Cmd
  | moveCmd : Int → Int → Cmd
deriving DecidableEq

/-- The fixed per-session configuration of OverlayWindow: the target handle
hwnd_parent and the relative offset rel_offset. -/
structure OverlayCfg where
  hwnd_parent : Nat
  rel_offset : Int × Int
deriving DecidableEq

/-- The mutable overlay state a tick reads and writes: the Qt visibility
flag (isVisible) and the last commanded position (move). -/
structure OverlayState where
  visible : Bool
  pos : Int × Int
deriving DecidableEq

/-- The hwnd_overlay computed at the top of _tick (src/main.py lines
293-297): int(self.winId()) with fallback 0 when it raises. -/
def tickOverlayHandle (env : TickEnv) : Nat :=
  match env.winId with
  | .ok h => h
  | .error _ => 0

/-- The covered flag a tick computes (src/main.py line 300). -/
def tickCovered (cfg : OverlayCfg) (env : TickEnv) : Bool :=
  is_window_covered_or_not_foreground env cfg.hwnd_parent (tickOverlayHandle env)

/-- Step 1 of _tick (src/main.py lines 300-304): hide when covered and
currently visible, show when not covered and currently hidden, else no
visibility command. -/
def tickVisibility (covered : Bool) (s : OverlayState) : OverlayState × List Cmd :=
  if covered && s.visible then ({ s with visible := false }, [Cmd.hideCmd])
  else if !covered && !s.visible then ({ s with visible := true }, [Cmd.showCmd])
  else (s, [])

/-- Step 2 of _tick (src/main.py lines 306-313): when hwnd_parent is truthy,
read the target rectangle and move the overlay to (r + dx, t + dy); a raise
from get_window_rect is swallowed by the except: pass, leaving the position
untouched. -/
def tickPosition (cfg : OverlayCfg) (env : TickEnv) (s : OverlayState) : OverlayState × List Cmd :=
  if cfg.hwnd_parent ≠ 0 then
    match env.rect with
    | .ok (_, t, r, _) =>
      ({ s with pos := (r + cfg.rel_offset.1, t + cfg.rel_offset.2) },
       [Cmd.moveCmd (r + cfg.rel_offset.1) (t + cfg.rel_offset.2)])
    | .error _ => (s, [])
  else (s, [])

/-- OverlayWindow._tick (src/main.py lines 291-313): visibility transition
first, then repositioning; the commands issued are listed in order. -/
def tick (cfg : OverlayCfg) (env : TickEnv) (s : OverlayState) : OverlayState × List Cmd :=
  let covered := tickCovered cfg env
  let sv := tickVisibility covered s
  let sp := tickPosition cfg env sv.1
  (sp.1, sv.2 ++ sp.2)

/-- The operator message printed by main when the lookup fails
(src/main.py line 6510; the source text quotes the word Steam, the quote
characters are omitted here). -/
def notFoundMsg : String :=
  "[!] 未找到标题为 Steam 的窗口"

/-- What main does after the startup lookup: either exit with a message and
a status code, never reaching the polling loop, or build the tracker
(OverlayWindow with the located handle and the fixed offset) and enter the
event loop. -/
inductive MainOutcome where
  | exited : String → Nat → MainOutcome
  | tracker : Nat → Int × Int → MainOutcome
deriving DecidableEq

/-- main (src/main.py lines 6507-6519): look up the window titled Steam;
if the result is falsy (None or handle 0) print the message and
sys.exit(1); otherwise construct OverlayWindow("bg.png", hwnd, (-617, 7))
and enter app.exec(). -/
def main_startup (ws : List Window) : MainOutcome :=
  match find_window_by_title_exact "Steam" ws with
  | none => .exited notFoundMsg 1
  | some h => if h = 0 then .exited notFoundMsg 1 else .tracker h (-617, 7)

/-- The locator contract in the words of the spec: the handle of the first
window in enumeration order that is both visible and whose (bounded-read,
trimmed) title equals the query exactly; NotFound (none) when no window
qualifies. -/
def locatorSpec (title : String) (ws : List Window) : Option Nat :=
  (ws.find? fun w => w.visible && (pyStrip (readWindowText w) == title)).map Window.hwnd

/-! ## Helper lemmas -/

/-- stripList leaves a left-stripped list left-stripped: removing trailing
whitespace cannot create leading whitespace. -/
theorem dropWhile_rdropWhile_fix {p : Char → Bool} {l : List Char}
    (h : l.dropWhile p = l) : (l.rdropWhile p).dropWhile p = l.rdropWhile p := by
  rw [List.dropWhile_eq_self_iff] at h ⊢
  intro hl
  have hp : l.rdropWhile p <+: l := List.rdropWhile_prefix p l
  have hlen : 0 < l.length := lt_of_lt_of_le hl hp.length_le
  have hg : (l.rdropWhile p).get ⟨0, hl⟩ = l.get ⟨0, hlen⟩ := by
    simpa [List.get_eq_getElem] using hp.getElem (n := 0) hl
  rw [hg]
  exact h hlen

/-- Python strip is idempotent on character lists. -/
theorem stripList_idem (l : List Char) : stripList (stripList l) = stripList l := by
  unfold stripList
  rw [dropWhile_rdropWhile_fix (List.dropWhile_idempotent _ _),
    List.rdropWhile_idempotent]

/-- Python strip is idempotent on strings. -/
theorem pyStrip_idem (s : String) : pyStrip (pyStrip s) = pyStrip s :=
  congrArg String.mk (stripList_idem s.data)

/-- A successful lookup names a member window that is visible and whose
stripped (bounded-read) title is exactly the query. -/
theorem find_some_mem {t : String} {ws : List Window} {h : Nat}
    (hf : find_window_by_title_exact t ws = some h) :
    ∃ w ∈ ws, w.hwnd = h ∧ w.visible = true ∧ pyStrip (readWindowText w) = t := by
  induction ws with
  | nil => simp [find_window_by_title_exact] at hf
  | cons w ws ih =>
    rw [find_window_by_title_exact] at hf
    by_cases hv : w.visible = false
    · rw [if_pos hv] at hf
      obtain ⟨w', hw', rest⟩ := ih hf
      exact ⟨w', List.mem_cons_of_mem _ hw', rest⟩
    · rw [if_neg hv] at hf
      by_cases hm : pyStrip (readWindowText w) = t
      · rw [if_pos hm] at hf
        exact ⟨w, List.mem_cons_self _ _,
          Option.some.inj hf, eq_true_of_ne_false hv, hm⟩
      · rw [if_neg hm] at hf
        obtain ⟨w', hw', rest⟩ := ih hf
        exact ⟨w', List.mem_cons_of_mem _ hw', rest⟩

/-- A title whose character list is at most 511 long survives the bounded
buffer read unchanged. -/
theorem readWindowText_eq_of_short {w : Window} (h : w.title.data.length ≤ 511) :
    readWindowText w = w.title := by
  unfold readWindowText
  rw [List.take_of_length_le h]

/-! ## C3 -/

/-- C3: find_window_by_title_exact returns the handle of the first window in
enumeration order that is both visible and whose trimmed (bounded-read)
title equals the query exactly, skipping every window whose visibility flag
is false, and returns none when no such window exists.  It is a total
function, so it never throws. -/
theorem c3_locator_first_match (t : String) (ws : List Window) :
    find_window_by_title_exact t ws = locatorSpec t ws := by
  induction ws with
  | nil => rfl
  | cons w ws ih =>
    rw [find_window_by_title_exact]
    by_cases hv : w.visible = false
    · rw [if_pos hv, ih]
      unfold locatorSpec
      rw [List.find?_cons_of_neg]
      simp [hv]
    · rw [if_neg hv]
      have hv' : w.visible = true := eq_true_of_ne_false hv
      by_cases hm : pyStrip (readWindowText w) = t
      · rw [if_pos hm]
        unfold locatorSpec
        rw [List.find?_cons_of_pos]
        · rfl
        · simp [hv', hm]
      · rw [if_neg hm, ih]
        unfold locatorSpec
        rw [List.find?_cons_of_neg]
        simp [hv', hm]

/-! ## C10 -/

/-- C10: a query that differs from its own stripped form (it carries leading
or trailing whitespace) is never found, whatever the windows are: every
comparison is against a stripped title, and stripping is idempotent. -/
theorem c10_untrimmed_query_not_found (t : String) (h : t ≠ pyStrip t)
    (ws : List Window) : find_window_by_title_exact t ws = none := by
  induction ws with
  | nil => rfl
  | cons w ws ih =>
    rw [find_window_by_title_exact]
    by_cases hv : w.visible = false
    · rw [if_pos hv]; exact ih
    · rw [if_neg hv]
      have hm : pyStrip (readWindowText w) ≠ t := by
        intro he
        exact h (by rw [← he, pyStrip_idem])
      rw [if_neg hm]
      exact ih

/-- C10 witness: the query with a leading space is not found even in a list
holding a visible window carrying that very title. -/
theorem c10_untrimmed_query_not_found_witness :
    (" Foo" ≠ pyStrip " Foo") ∧
      find_window_by_title_exact " Foo" [⟨1, true, " Foo"⟩] = none :=
  ⟨by decide, c10_untrimmed_query_not_found " Foo" (by decide) [⟨1, true, " Foo"⟩]⟩

/-! ## C4 -/

/-- C4: over any windows drawn from the titles Foo, Foo-with-trailing-space,
Foo-with-leading-space and Foobar, a successful lookup of the query Foo only
ever returns a window whose stripped title is exactly Foo; a window titled
Foobar is never the one returned. -/
theorem c4_exact_match_only (ws : List Window)
    (hT : ∀ w ∈ ws, w.title ∈ ["Foo", "Foo ", " Foo", "Foobar"]) :
    ∀ h, find_window_by_title_exact "Foo" ws = some h →
      ∃ w ∈ ws, w.hwnd = h ∧ w.visible = true ∧
        pyStrip w.title = "Foo" ∧ w.title ≠ "Foobar" := by
  intro h hf
  obtain ⟨w, hw, hh, hv, hm⟩ := find_some_mem hf
  have hshort : readWindowText w = w.title := by
    apply readWindowText_eq_of_short
    have hmem := hT w hw
    simp only [List.mem_cons, List.not_mem_nil, or_false] at hmem
    rcases hmem with ht | ht | ht | ht <;> rw [ht] <;> decide
  rw [hshort] at hm
  refine ⟨w, hw, hh, hv, hm, ?_⟩
  intro hbar
  rw [hbar] at hm
  exact absurd hm (by decide)

/-- C4 witness: on a list holding a visible Foobar window, an invisible Foo
window and a visible Foo-with-trailing-space window, the lookup returns the
third, and the theorem yields a member with stripped title Foo. -/
theorem c4_exact_match_only_witness :
    (∀ w ∈ ([⟨1, true, "Foobar"⟩, ⟨2, false, "Foo"⟩, ⟨3, true, "Foo "⟩] :
        List Window), w.title ∈ ["Foo", "Foo ", " Foo", "Foobar"]) ∧
      find_window_by_title_exact "Foo"
        [⟨1, true, "Foobar"⟩, ⟨2, false, "Foo"⟩, ⟨3, true, "Foo "⟩] = some 3 ∧
      (∃ w ∈ ([⟨1, true, "Foobar"⟩, ⟨2, false, "Foo"⟩, ⟨3, true, "Foo "⟩] :
          List Window), w.hwnd = 3 ∧ w.visible = true ∧
        pyStrip w.title = "Foo" ∧ w.title ≠ "Foobar") :=
  ⟨by decide, by decide,
    c4_exact_match_only _ (by decide) 3 (by decide)⟩

/-! ## C9 -/

/-- C9: when the startup lookup of the title Steam finds nothing, main
reports the operator message and exits with status 1 (nonzero), never
reaching the polling loop; when it finds a handle (always nonzero, since
the OS never enumerates the null handle as a window), main proceeds to
build the tracker with that handle and the fixed offset. -/
theorem c9_startup_lookup (ws : List Window) (hws : ∀ w ∈ ws, w.hwnd ≠ 0) :
    (find_window_by_title_exact "Steam" ws = none →
      main_startup ws = .exited notFoundMsg 1 ∧ (1 : Nat) ≠ 0) ∧
    (∀ h, find_window_by_title_exact "Steam" ws = some h →
      main_startup ws = .tracker h (-617, 7)) := by
  constructor
  · intro hn
    rw [main_startup, hn]
    exact ⟨rfl, one_ne_zero⟩
  · intro h hf
    obtain ⟨w, hw, hh, -, -⟩ := find_some_mem hf
    have h0 : h ≠ 0 := hh ▸ hws w hw
    rw [main_startup, hf]
    exact if_neg h0

/-- C9 witness: on an empty desktop, main exits with the message and status
1; on a desktop holding a visible Steam window with handle 3, main starts
the tracker on handle 3 with offset (-617, 7). -/
theorem c9_startup_lookup_witness :
    (main_startup [] = .exited notFoundMsg 1) ∧
      (main_startup [⟨3, true, "Steam"⟩] = .tracker 3 (-617, 7)) :=
  ⟨((c9_startup_lookup [] (by decide)).1 (by decide)).1,
    (c9_startup_lookup [⟨3, true, "Steam"⟩] (by decide)).2 3 (by decide)⟩

/-! ## C1 -/

/-- C1: the covered flag is true whenever the target handle is absent or
invalid (falsy), or the minimized check reports the target minimized, or
the foreground read reports a window that is neither the target nor the
known (nonzero) overlay handle. -/
theorem c1_fail_safe_covering (env : TickEnv) (hs ho : Nat)
    (h : hs = 0 ∨ env.iconic = .ok true ∨
      ∃ f, env.fg = .ok f ∧ f ≠ hs ∧ (ho = 0 ∨ f ≠ ho)) :
    is_window_covered_or_not_foreground env hs ho = true := by
  unfold is_window_covered_or_not_foreground coveredBody
  rcases h with h0 | h1 | ⟨f, hf, hne, hov⟩
  · rw [if_pos h0]
  · by_cases h0 : hs = 0
    · rw [if_pos h0]
    · rw [if_neg h0, h1]; rfl
  · by_cases h0 : hs = 0
    · rw [if_pos h0]
    · rw [if_neg h0]
      cases hic : env.iconic with
      | error e => rfl
      | ok b =>
        cases b with
        | true => rfl
        | false =>
          rw [hf]
          simp only [if_neg hne]
          have hov' : ¬(ho ≠ 0 ∧ f = ho) := by
            rcases hov with h | h
            · exact fun hc => hc.1 h
            · exact fun hc => h hc.2
          simp only [if_neg hov']
          rfl

/-- C1 witness: a valid unminimized target with a foreground window that is
neither the target nor the overlay is covered. -/
theorem c1_fail_safe_covering_witness :
    ((9 : Nat) ≠ 5 ∧ (9 : Nat) ≠ 7) ∧
      is_window_covered_or_not_foreground
        ⟨.ok 7, .ok false, .ok 9, .error ()⟩ 5 7 = true :=
  ⟨by decide,
    c1_fail_safe_covering ⟨.ok 7, .ok false, .ok 9, .error ()⟩ 5 7
      (Or.inr (Or.inr ⟨9, rfl, by decide, Or.inr (by decide)⟩))⟩

/-! ## C2 -/

/-- C2 counterexample: the claim asserts covered is false whenever the
foreground window equals the target or the known overlay handle, even when
the target is minimized; but with target 5 minimized and foreground 5 the
code computes covered = true, because the IsIconic branch fires before the
foreground comparison. -/
theorem c2_foreground_exemption_counterexample :
    ¬(∀ (env : TickEnv) (hs ho f : Nat), env.fg = .ok f →
      (f = hs ∨ (ho ≠ 0 ∧ f = ho)) →
      is_window_covered_or_not_foreground env hs ho = false) := by
  intro hclaim
  have h := hclaim ⟨.ok 7, .ok true, .ok 5, .error ()⟩ 5 7 5 rfl (Or.inl rfl)
  exact absurd h (by decide)

/-- C2 amended: provided the target handle is valid, the minimized check
succeeds reporting not minimized, and the foreground read succeeds, a
foreground window equal to the target or to the known (nonzero) overlay
handle makes covered false. -/
theorem c2_foreground_exemption_amended (env : TickEnv) (hs ho f : Nat)
    (h0 : hs ≠ 0) (hic : env.iconic = .ok false) (hfg : env.fg = .ok f)
    (hf : f = hs ∨ (ho ≠ 0 ∧ f = ho)) :
    is_window_covered_or_not_foreground env hs ho = false := by
  unfold is_window_covered_or_not_foreground coveredBody
  rw [if_neg h0, hic, hfg]
  simp only [Bool.false_eq_true, if_false]
  rcases hf with rfl | ⟨hho, rfl⟩
  · rw [if_pos rfl]
  · by_cases hth : f = hs
    · rw [if_pos hth]
    · rw [if_neg hth, if_pos ⟨hho, rfl⟩]

/-- C2 amended witness: target 5 valid and not minimized, foreground is the
overlay handle 7, so covered is false. -/
theorem c2_foreground_exemption_amended_witness :
    ((5 : Nat) ≠ 0 ∧ (7 : Nat) ≠ 0) ∧
      is_window_covered_or_not_foreground
        ⟨.ok 7, .ok false, .ok 7, .error ()⟩ 5 7 = false :=
  ⟨by decide,
    c2_foreground_exemption_amended ⟨.ok 7, .ok false, .ok 7, .error ()⟩ 5 7 7
      (by decide) rfl rfl (Or.inr ⟨by decide, rfl⟩)⟩

/-! ## Tick helper lemmas -/

/-- Unfolding of tick into its two steps. -/
theorem tick_eq (cfg : OverlayCfg) (env : TickEnv) (s : OverlayState) :
    tick cfg env s =
      ((tickPosition cfg env (tickVisibility (tickCovered cfg env) s).1).1,
       (tickVisibility (tickCovered cfg env) s).2 ++
         (tickPosition cfg env (tickVisibility (tickCovered cfg env) s).1).2) :=
  rfl

/-- After the visibility step the flag always equals not-covered. -/
theorem tickVisibility_fst_visible (c : Bool) (s : OverlayState) :
    (tickVisibility c s).1.visible = !c := by
  cases c <;> cases hv : s.visible <;> simp [tickVisibility, hv]

/-- The visibility step never touches the position. -/
theorem tickVisibility_fst_pos (c : Bool) (s : OverlayState) :
    (tickVisibility c s).1.pos = s.pos := by
  cases c <;> cases hv : s.visible <;> simp [tickVisibility, hv]

/-- A hide command is issued exactly when covered and currently visible. -/
theorem hideCmd_mem_tickVisibility (c : Bool) (s : OverlayState) :
    Cmd.hideCmd ∈ (tickVisibility c s).2 ↔ (c = true ∧ s.visible = true) := by
  cases c <;> cases hv : s.visible <;> simp [tickVisibility, hv]

/-- A show command is issued exactly when not covered and currently hidden. -/
theorem showCmd_mem_tickVisibility (c : Bool) (s : OverlayState) :
    Cmd.showCmd ∈ (tickVisibility c s).2 ↔ (c = false ∧ s.visible = false) := by
  cases c <;> cases hv : s.visible <;> simp [tickVisibility, hv]

/-- The visibility step only ever issues hide or show. -/
theorem mem_tickVisibility {c : Cmd} {cov : Bool} {s : OverlayState}
    (h : c ∈ (tickVisibility cov s).2) : c = Cmd.hideCmd ∨ c = Cmd.showCmd := by
  cases cov <;> cases hv : s.visible <;> simp [tickVisibility, hv] at h <;> simp [h]

/-- The position step never touches the visibility flag. -/
theorem tickPosition_fst_visible (cfg : OverlayCfg) (env : TickEnv) (s : OverlayState) :
    (tickPosition cfg env s).1.visible = s.visible := by
  unfold tickPosition
  by_cases h : cfg.hwnd_parent ≠ 0
  · rw [if_pos h]
    cases hr : env.rect with
    | ok v => obtain ⟨l, t, r, b⟩ := v; rfl
    | error e => rfl
  · rw [if_neg h]

/-- The position step only ever issues move commands. -/
theorem mem_tickPosition {cfg : OverlayCfg} {env : TickEnv} {s : OverlayState} {c : Cmd}
    (h : c ∈ (tickPosition cfg env s).2) : ∃ x y, c = Cmd.moveCmd x y := by
  unfold tickPosition at h
  by_cases h0 : cfg.hwnd_parent ≠ 0
  · rw [if_pos h0] at h
    cases hr : env.rect with
    | ok v =>
      obtain ⟨l, t, r, b⟩ := v
      rw [hr] at h
      simp only [List.mem_singleton] at h
      exact ⟨_, _, h⟩
    | error e =>
      rw [hr] at h
      simp at h
  · rw [if_neg h0] at h
    simp at h

/-- When the target handle is truthy and the rectangle read succeeds, the
position step moves the overlay to (right + dx, top + dy). -/
theorem tickPosition_of_ok {cfg : OverlayCfg} {env : TickEnv} (s : OverlayState)
    {l t r b : Int} (h0 : cfg.hwnd_parent ≠ 0) (hr : env.rect = .ok (l, t, r, b)) :
    tickPosition cfg env s =
      ({ s with pos := (r + cfg.rel_offset.1, t + cfg.rel_offset.2) },
       [Cmd.moveCmd (r + cfg.rel_offset.1) (t + cfg.rel_offset.2)]) := by
  unfold tickPosition
  rw [if_pos h0, hr]

/-- When the rectangle read raises, the position step is a no-op. -/
theorem tickPosition_of_error {cfg : OverlayCfg} {env : TickEnv} (s : OverlayState)
    (hr : env.rect = .error ()) : tickPosition cfg env s = (s, []) := by
  unfold tickPosition
  by_cases h0 : cfg.hwnd_parent ≠ 0
  · rw [if_pos h0, hr]
  · rw [if_neg h0]

/-- A non-move command is in the tick output exactly when the visibility
step issued it. -/
theorem vis_mem_tick (cfg : OverlayCfg) (env : TickEnv) (s : OverlayState) (c : Cmd)
    (hc : ∀ x y, c ≠ Cmd.moveCmd x y) :
    c ∈ (tick cfg env s).2 ↔ c ∈ (tickVisibility (tickCovered cfg env) s).2 := by
  rw [tick_eq, List.mem_append]
  constructor
  · rintro (h | h)
    · exact h
    · obtain ⟨x, y, rfl⟩ := mem_tickPosition h
      exact absurd rfl (hc x y)
  · exact Or.inl

/-! ## C5 -/

/-- C5: whenever the target rectangle (l, t, r, b) is read successfully in a
tick (the target handle being truthy so the read happens), the overlay is
moved to (r + dx, t + dy) for the configured offset (dx, dy): the move
command is issued and the commanded position is recorded. -/
theorem c5_position_formula (cfg : OverlayCfg) (env : TickEnv) (s : OverlayState)
    (l t r b : Int) (h0 : cfg.hwnd_parent ≠ 0) (hr : env.rect = .ok (l, t, r, b)) :
    (tick cfg env s).1.pos = (r + cfg.rel_offset.1, t + cfg.rel_offset.2) ∧
      Cmd.moveCmd (r + cfg.rel_offset.1) (t + cfg.rel_offset.2) ∈ (tick cfg env s).2 := by
  rw [tick_eq, tickPosition_of_ok _ h0 hr]
  exact ⟨rfl, List.mem_append_right _ (List.mem_singleton_self _)⟩

/-- C5 witness: with target rectangle (100, 50, 300, 400) and offset
(-617, 7) the overlay is moved to (300 - 617, 50 + 7) = (-317, 57). -/
theorem c5_position_formula_witness :
    ((5 : Nat) ≠ 0) ∧
      (tick ⟨5, (-617, 7)⟩ ⟨.ok 7, .ok false, .ok 5, .ok (100, 50, 300, 400)⟩
          ⟨false, (0, 0)⟩).1.pos = (-317, 57) ∧
      Cmd.moveCmd (-317) 57 ∈
        (tick ⟨5, (-617, 7)⟩ ⟨.ok 7, .ok false, .ok 5, .ok (100, 50, 300, 400)⟩
          ⟨false, (0, 0)⟩).2 := by
  have h := c5_position_formula ⟨5, (-617, 7)⟩
    ⟨.ok 7, .ok false, .ok 5, .ok (100, 50, 300, 400)⟩ ⟨false, (0, 0)⟩
    100 50 300 400 (by decide) rfl
  refine ⟨by decide, ?_, ?_⟩
  · rw [h.1]; decide
  · have hm := h.2
    rw [show ((-317 : Int)) = 300 + (-617 : Int) by decide,
      show ((57 : Int)) = 50 + (7 : Int) by decide]
    exact hm

/-! ## C6 -/

/-- C6: a hide command is issued iff covered and currently visible; a show
command is issued iff not covered and currently hidden; after every tick the
visibility flag equals not-covered; hence a second tick whose covered value
is unchanged issues neither hide nor show. -/
theorem c6_idempotent_visibility (cfg : OverlayCfg) (env : TickEnv) (s : OverlayState) :
    (Cmd.hideCmd ∈ (tick cfg env s).2 ↔
      (tickCovered cfg env = true ∧ s.visible = true)) ∧
    (Cmd.showCmd ∈ (tick cfg env s).2 ↔
      (tickCovered cfg env = false ∧ s.visible = false)) ∧
    ((tick cfg env s).1.visible = !tickCovered cfg env) ∧
    (∀ env₂, tickCovered cfg env₂ = tickCovered cfg env →
      Cmd.hideCmd ∉ (tick cfg env₂ (tick cfg env s).1).2 ∧
      Cmd.showCmd ∉ (tick cfg env₂ (tick cfg env s).1).2) := by
  have hvis : (tick cfg env s).1.visible = !tickCovered cfg env := by
    rw [tick_eq, tickPosition_fst_visible, tickVisibility_fst_visible]
  refine ⟨?_, ?_, hvis, ?_⟩
  · rw [vis_mem_tick cfg env s Cmd.hideCmd (fun x y h => Cmd.noConfusion h)]
    exact hideCmd_mem_tickVisibility _ _
  · rw [vis_mem_tick cfg env s Cmd.showCmd (fun x y h => Cmd.noConfusion h)]
    exact showCmd_mem_tickVisibility _ _
  · intro env₂ hcov
    constructor
    · rw [vis_mem_tick cfg env₂ _ Cmd.hideCmd (fun x y h => Cmd.noConfusion h),
        hideCmd_mem_tickVisibility]
      rintro ⟨hc, hv⟩
      rw [hvis, ← hcov, hc] at hv
      exact absurd hv (by decide)
    · rw [vis_mem_tick cfg env₂ _ Cmd.showCmd (fun x y h => Cmd.noConfusion h),
        showCmd_mem_tickVisibility]
      rintro ⟨hc, hv⟩
      rw [hvis, ← hcov, hc] at hv
      exact absurd hv (by decide)

/-- C6 witness: with the foreground on a third window (covered true) and
the overlay visible, the first tick issues hide; a second tick under the
same environment issues neither hide nor show. -/
theorem c6_idempotent_visibility_witness :
    Cmd.hideCmd ∈
      (tick ⟨5, (1, 2)⟩ ⟨.ok 7, .ok false, .ok 9, .error ()⟩ ⟨true, (0, 0)⟩).2 ∧
    Cmd.hideCmd ∉
      (tick ⟨5, (1, 2)⟩ ⟨.ok 7, .ok false, .ok 9, .error ()⟩
        (tick ⟨5, (1, 2)⟩ ⟨.ok 7, .ok false, .ok 9, .error ()⟩ ⟨true, (0, 0)⟩).1).2 ∧
    Cmd.showCmd ∉
      (tick ⟨5, (1, 2)⟩ ⟨.ok 7, .ok false, .ok 9, .error ()⟩
        (tick ⟨5, (1, 2)⟩ ⟨.ok 7, .ok false, .ok 9, .error ()⟩ ⟨true, (0, 0)⟩).1).2 := by
  have h := c6_idempotent_visibility ⟨5, (1, 2)⟩
    ⟨.ok 7, .ok false, .ok 9, .error ()⟩ ⟨true, (0, 0)⟩
  exact ⟨h.1.mpr (by exact ⟨rfl, rfl⟩), (h.2.2.2 _ rfl).1, (h.2.2.2 _ rfl).2⟩

/-! ## C7 -/

/-- C7: when the rectangle read fails in a tick, no move command is issued,
the recorded position stays at its last commanded value, and the visibility
flag still ends up at not-covered as computed that tick. -/
theorem c7_decoupled_failure (cfg : OverlayCfg) (env : TickEnv) (s : OverlayState)
    (hr : env.rect = .error ()) :
    (∀ x y, Cmd.moveCmd x y ∉ (tick cfg env s).2) ∧
    (tick cfg env s).1.pos = s.pos ∧
    (tick cfg env s).1.visible = !tickCovered cfg env := by
  refine ⟨?_, ?_, ?_⟩
  · intro x y hmem
    rw [tick_eq, tickPosition_of_error _ hr] at hmem
    rw [List.append_nil] at hmem
    rcases mem_tickVisibility hmem with h | h <;> exact Cmd.noConfusion h
  · rw [tick_eq, tickPosition_of_error _ hr, tickVisibility_fst_pos]
  · rw [tick_eq, tickPosition_of_error _ hr, tickVisibility_fst_visible]

/-- C7 witness: target 5 foreground and the rectangle read raising — the
tick issues no move, keeps position (1, 2) and shows the overlay. -/
theorem c7_decoupled_failure_witness :
    (∀ x y, Cmd.moveCmd x y ∉
      (tick ⟨5, (-617, 7)⟩ ⟨.ok 7, .ok false, .ok 5, .error ()⟩ ⟨false, (1, 2)⟩).2) ∧
    (tick ⟨5, (-617, 7)⟩ ⟨.ok 7, .ok false, .ok 5, .error ()⟩ ⟨false, (1, 2)⟩).1.pos
      = (1, 2) ∧
    (tick ⟨5, (-617, 7)⟩ ⟨.ok 7, .ok false, .ok 5, .error ()⟩ ⟨false, (1, 2)⟩).1.visible
      = !tickCovered ⟨5, (-617, 7)⟩ ⟨.ok 7, .ok false, .ok 5, .error ()⟩ :=
  c7_decoupled_failure ⟨5, (-617, 7)⟩ ⟨.ok 7, .ok false, .ok 5, .error ()⟩
    ⟨false, (1, 2)⟩ rfl

/-! ## C8 -/

/-- C8: the tick is a total function of the query outcomes (so no exception
ever propagates out of it); a raise from the minimized check or from the
foreground read makes the covered computation return true; and such a
failure does not abort the rest of the tick: the visibility transition is
still applied and, when the rectangle read succeeds with a truthy target
handle, the reposition still happens. -/
theorem c8_tick_failsafe (cfg : OverlayCfg) (env : TickEnv) (s : OverlayState)
    (hs ho : Nat) (h : env.iconic = .error () ∨ env.fg = .error ()) :
    is_window_covered_or_not_foreground env hs ho = true ∧
    (tick cfg env s).1.visible = !tickCovered cfg env ∧
    (∀ l t r b, cfg.hwnd_parent ≠ 0 → env.rect = .ok (l, t, r, b) →
      (tick cfg env s).1.pos = (r + cfg.rel_offset.1, t + cfg.rel_offset.2)) := by
  refine ⟨?_, ?_, ?_⟩
  · unfold is_window_covered_or_not_foreground coveredBody
    by_cases h0 : hs = 0
    · rw [if_pos h0]
    · rw [if_neg h0]
      rcases h with hic | hfg
      · rw [hic]
      · cases hic : env.iconic with
        | error e => rfl
        | ok b =>
          cases b with
          | true => rfl
          | false => rw [hfg]; rfl
  · rw [tick_eq, tickPosition_fst_visible, tickVisibility_fst_visible]
  · intro l t r b h0 hr
    rw [tick_eq, tickPosition_of_ok _ h0 hr]

/-- C8 witness: minimized check raising, rectangle read succeeding — covered
is true, the overlay is hidden and still repositioned. -/
theorem c8_tick_failsafe_witness :
    is_window_covered_or_not_foreground ⟨.ok 7, .error (), .ok 5, .ok (0, 0, 10, 20)⟩ 5 7
        = true ∧
      (tick ⟨5, (1, 2)⟩ ⟨.ok 7, .error (), .ok 5, .ok (0, 0, 10, 20)⟩
          ⟨true, (0, 0)⟩).1.visible
        = !tickCovered ⟨5, (1, 2)⟩ ⟨.ok 7, .error (), .ok 5, .ok (0, 0, 10, 20)⟩ ∧
      (tick ⟨5, (1, 2)⟩ ⟨.ok 7, .error (), .ok 5, .ok (0, 0, 10, 20)⟩
          ⟨true, (0, 0)⟩).1.pos = (10 + 1, 0 + 2) := by
  have h := c8_tick_failsafe ⟨5, (1, 2)⟩ ⟨.ok 7, .error (), .ok 5, .ok (0, 0, 10, 20)⟩
    ⟨true, (0, 0)⟩ 5 7 (Or.inl rfl)
  exact ⟨h.1, h.2.1, h.2.2 0 0 10 20 (by decide) rfl⟩

end FakeVac
